import Mathlib

/-!
Shallow embedding of the pos-cashier-app RPC server: the zod schemas
(`src/server/src/schema.ts`, first unnamed part), the three handlers
(`src/server/src/handlers/{login,get_user,create_user}.ts`) and the tRPC
router (`appRouter`, second unnamed part).

Modelling conventions:
* `new Date()` / the current clock is passed explicitly as a `now : Nat`
  parameter (an instant; the code's ISO-8601 rendering preserves order).
* `Math.random()` returns a real in `[0, 1)`; it is passed explicitly as a
  `rand : ℚ` parameter, and `Math.floor` becomes `Int.floor`.
* A handler that returns `T | null` becomes `Option T`; the optional
  `user?` field of `LoginResponse` becomes `Option PublicUser`.
* zod validation (`schema.parse`) becomes an `Except ValidationError`
  returning function; the router composes validation with the handler in
  the `Except` monad, so a validation error means the handler is never
  applied.
-/

/-- User record, from `userSchema` in `schema.ts`:
`{id: number, username: string, password_hash: string, created_at: date}`. -/
structure User where
  id : Int
  username : String
  password_hash : String
  created_at : Nat
deriving DecidableEq, Repr

/-- Login input, from `loginInputSchema` in `schema.ts`. -/
structure LoginInput where
  username : String
  password : String
deriving DecidableEq, Repr

/-- The inline `{id, username}` object of `loginResponseSchema.user`. -/
structure PublicUser where
  id : Int
  username : String
deriving DecidableEq, Repr

/-- Login response, from `loginResponseSchema` in `schema.ts`; the optional
`user` field is modelled as `Option PublicUser`. -/
structure LoginResponse where
  success : Bool
  message : String
  user : Option PublicUser
deriving DecidableEq, Repr

/-- User-creation input, from `createUserInputSchema` in `schema.ts`. -/
structure CreateUserInput where
  username : String
  password : String
deriving DecidableEq, Repr

/-- A zod validation failure: the list of issue messages produced by the
failing schema constraints. -/
structure ValidationError where
  issues : List String
deriving DecidableEq, Repr

/-- Result of the `healthcheck` procedure in the router:
`{status: 'ok', timestamp: new Date().toISOString()}`, with the timestamp
modelled as the instant `now`. -/
structure HealthcheckResult where
  status : String
  timestamp : Nat
deriving DecidableEq, Repr

/-- Constant from `handlers/login.ts`. -/
def DEMO_USERNAME : String := "demo"

/-- Constant from `handlers/login.ts`. -/
def DEMO_PASSWORD : String := "demo123"

/-- The `login` handler from `handlers/login.ts`: plaintext comparison
against the hardcoded demo credentials. -/
def login (input : LoginInput) : LoginResponse :=
  if input.username = DEMO_USERNAME ∧ input.password = DEMO_PASSWORD then
    { success := true
      message := "Login successful"
      user := some { id := 1, username := DEMO_USERNAME } }
  else
    { success := false
      message := "Invalid username or password"
      user := none }

/-- The `getUser` handler from `handlers/get_user.ts`: returns the demo
user for id 1, `null` (here `none`) otherwise. `now` stands for
`new Date()`. -/
def getUser (userId : Int) (now : Nat) : Option User :=
  if userId = 1 then
    some { id := 1
           username := "demo"
           password_hash := "$2b$10$demo_hash"
           created_at := now }
  else
    none

/-- The `createUser` handler from `handlers/create_user.ts`:
`id := Math.floor(Math.random() * 1000)` with `rand` standing for the
`Math.random()` draw, a fixed placeholder hash string, and
`created_at := new Date()` as `now`. -/
def createUser (input : CreateUserInput) (rand : ℚ) (now : Nat) : User :=
  { id := ⌊rand * 1000⌋
    username := input.username
    password_hash := "$2b$10$placeholder_hash"
    created_at := now }

/-- Issue messages produced by `loginInputSchema` on a given input:
`username: z.string().min(1, "Username is required")`,
`password: z.string().min(1, "Password is required")`. -/
def loginInputSchema_issues (raw : LoginInput) : List String :=
  (if raw.username.length < 1 then ["Username is required"] else []) ++
  (if raw.password.length < 1 then ["Password is required"] else [])

/-- Parsing with `loginInputSchema`: succeeds exactly when no constraint
fails. -/
def loginInputSchema_parse (raw : LoginInput) : Except ValidationError LoginInput :=
  match loginInputSchema_issues raw with
  | [] => .ok raw
  | issue :: rest => .error ⟨issue :: rest⟩

/-- Issue messages produced by `createUserInputSchema` on a given input:
`username: z.string().min(1, "Username is required")`,
`password: z.string().min(6, "Password must be at least 6 characters")`. -/
def createUserInputSchema_issues (raw : CreateUserInput) : List String :=
  (if raw.username.length < 1 then ["Username is required"] else []) ++
  (if raw.password.length < 6 then ["Password must be at least 6 characters"] else [])

/-- Parsing with `createUserInputSchema`: succeeds exactly when no
constraint fails. -/
def createUserInputSchema_parse (raw : CreateUserInput) :
    Except ValidationError CreateUserInput :=
  match createUserInputSchema_issues raw with
  | [] => .ok raw
  | issue :: rest => .error ⟨issue :: rest⟩

/-- The `healthcheck` procedure of `appRouter`. -/
def appRouter_healthcheck (now : Nat) : HealthcheckResult :=
  { status := "ok", timestamp := now }

/-- The `login` procedure of `appRouter`: validate with
`loginInputSchema`, then run the `login` handler. -/
def appRouter_login (raw : LoginInput) : Except ValidationError LoginResponse :=
  (loginInputSchema_parse raw).map login

/-- The `getUser` procedure of `appRouter`: `z.object({userId: z.number()})`
imposes no constraint beyond the type, so a typed `userId` always reaches
the handler. -/
def appRouter_getUser (userId : Int) (now : Nat) : Except ValidationError (Option User) :=
  .ok (getUser userId now)

/-- The `createUser` procedure of `appRouter`: validate with
`createUserInputSchema`, then run the `createUser` handler. -/
def appRouter_createUser (raw : CreateUserInput) (rand : ℚ) (now : Nat) :
    Except ValidationError User :=
  (createUserInputSchema_parse raw).map (fun input => createUser input rand now)

/-- A string has length zero exactly when it is empty. -/
theorem string_length_eq_zero_iff (s : String) : s.length = 0 ↔ s = "" := by
  constructor
  · intro h
    cases s with
    | mk data =>
      cases data with
      | nil => rfl
      | cons c cs => simp [String.length] at h
  · intro h
    subst h
    rfl

/-- C1: for every LoginInput with username "demo" and password "demo123",
the login handler returns success = true with user id 1 and username
"demo". -/
theorem login_demo_success (input : LoginInput)
    (hu : input.username = "demo") (hp : input.password = "demo123") :
    (login input).success = true ∧
    (login input).user = some { id := 1, username := "demo" } := by
  have hcond : input.username = DEMO_USERNAME ∧ input.password = DEMO_PASSWORD :=
    ⟨hu, hp⟩
  rw [login, if_pos hcond]
  exact ⟨rfl, rfl⟩

/-- Witness for C1 at the concrete demo credentials. -/
theorem login_demo_success_witness :
    (login ⟨"demo", "demo123"⟩).success = true ∧
    (login ⟨"demo", "demo123"⟩).user = some { id := 1, username := "demo" } :=
  login_demo_success ⟨"demo", "demo123"⟩ rfl rfl

/-- C2: for every LoginInput whose credentials are not exactly
("demo", "demo123"), the login handler returns success = false with the
user field absent. -/
theorem login_reject_nondemo (input : LoginInput)
    (h : ¬ (input.username = "demo" ∧ input.password = "demo123")) :
    (login input).success = false ∧ (login input).user = none := by
  have h' : ¬ (input.username = DEMO_USERNAME ∧ input.password = DEMO_PASSWORD) := h
  rw [login, if_neg h']
  exact ⟨rfl, rfl⟩

/-- Witness for C2 at a concrete wrong password. -/
theorem login_reject_nondemo_witness :
    (login ⟨"demo", "wrong"⟩).success = false ∧
    (login ⟨"demo", "wrong"⟩).user = none :=
  login_reject_nondemo ⟨"demo", "wrong"⟩ (by decide)

/-- C4: the failure response reveals nothing about which credential was
wrong: any two failing LoginInputs get the identical response, with the
same generic message. -/
theorem login_failure_uniform (i1 i2 : LoginInput)
    (h1 : ¬ (i1.username = "demo" ∧ i1.password = "demo123"))
    (h2 : ¬ (i2.username = "demo" ∧ i2.password = "demo123")) :
    login i1 = login i2 ∧ (login i1).message = "Invalid username or password" := by
  have h1' : ¬ (i1.username = DEMO_USERNAME ∧ i1.password = DEMO_PASSWORD) := h1
  have h2' : ¬ (i2.username = DEMO_USERNAME ∧ i2.password = DEMO_PASSWORD) := h2
  rw [login, login, if_neg h1', if_neg h2']
  exact ⟨rfl, rfl⟩

/-- Witness for C4: a wrong username and a wrong password produce the
same response. -/
theorem login_failure_uniform_witness :
    login ⟨"alice", "demo123"⟩ = login ⟨"demo", "letmein"⟩ ∧
    (login ⟨"alice", "demo123"⟩).message = "Invalid username or password" :=
  login_failure_uniform ⟨"alice", "demo123"⟩ ⟨"demo", "letmein"⟩ (by decide) (by decide)

/-- C8: in every response produced by the login handler, the user field
is present exactly when success is true. -/
theorem login_user_present_iff_success (input : LoginInput) :
    (login input).user.isSome = (login input).success := by
  rw [login]
  split <;> rfl

/-- C5: getUser 1 returns the demo user (id 1, username "demo"); getUser
at any other integer returns none, an ordinary value of the total
function, not an error. -/
theorem getUser_spec (now : Nat) (userId : Int) :
    (∃ u : User, getUser 1 now = some u ∧ u.id = 1 ∧ u.username = "demo") ∧
    (userId ≠ 1 → getUser userId now = none) := by
  constructor
  · exact ⟨_, rfl, rfl, rfl⟩
  · intro h
    rw [getUser, if_neg h]

/-- Witness for C5 at now = 0 and userId = 2. -/
theorem getUser_spec_witness :
    (∃ u : User, getUser 1 0 = some u ∧ u.id = 1 ∧ u.username = "demo") ∧
    getUser 2 0 = none :=
  ⟨(getUser_spec 0 2).1, (getUser_spec 0 2).2 (by decide)⟩

/-- C3 counterexample: the claim that createUser's password_hash is never
the plaintext password fails when the input password is the literal
placeholder string, which is a valid password (length 22 ≥ 6). -/
theorem createUser_hash_never_plaintext_cex :
    ¬ (∀ (input : CreateUserInput) (rand : ℚ) (now : Nat),
        1 ≤ input.username.length → 6 ≤ input.password.length →
        (createUser input rand now).username = input.username ∧
        (createUser input rand now).password_hash ≠ input.password) := by
  intro h
  have hbad := h ⟨"alice", "$2b$10$placeholder_hash"⟩ 0 0 (by decide) (by decide)
  exact hbad.2 rfl

/-- C3 amended: for every valid CreateUserInput whose password is not the
literal placeholder string, createUser preserves the username and returns
a password_hash different from the plaintext password. -/
theorem createUser_username_and_hash (input : CreateUserInput) (rand : ℚ) (now : Nat)
    (hu : 1 ≤ input.username.length) (hp : 6 ≤ input.password.length)
    (hne : input.password ≠ "$2b$10$placeholder_hash") :
    (createUser input rand now).username = input.username ∧
    (createUser input rand now).password_hash ≠ input.password := by
  refine ⟨rfl, fun heq => hne ?_⟩
  rw [show (createUser input rand now).password_hash = "$2b$10$placeholder_hash" from rfl]
    at heq
  exact heq.symm

/-- Witness for the amended C3 at a concrete valid input. -/
theorem createUser_username_and_hash_witness :
    1 ≤ ("alice" : String).length ∧ 6 ≤ ("secret123" : String).length ∧
    ("secret123" : String) ≠ "$2b$10$placeholder_hash" ∧
    ((createUser ⟨"alice", "secret123"⟩ 0 0).username = "alice" ∧
     (createUser ⟨"alice", "secret123"⟩ 0 0).password_hash ≠ "secret123") :=
  ⟨by decide, by decide, by decide,
   createUser_username_and_hash ⟨"alice", "secret123"⟩ 0 0 (by decide) (by decide) (by decide)⟩

/-- C6: any createUser input whose password is shorter than 6 characters
is rejected by schema validation with a ValidationError; the router
returns the error, so the handler is never applied. -/
theorem createUser_route_rejects_short_password (raw : CreateUserInput)
    (rand : ℚ) (now : Nat) (h : raw.password.length < 6) :
    ∃ e : ValidationError, appRouter_createUser raw rand now = Except.error e := by
  unfold appRouter_createUser createUserInputSchema_parse createUserInputSchema_issues
  rw [if_pos h]
  by_cases hA : raw.username.length < 1
  · rw [if_pos hA]
    exact ⟨_, rfl⟩
  · rw [if_neg hA]
    exact ⟨_, rfl⟩

/-- Witness for C6 at a concrete five-character password. -/
theorem createUser_route_rejects_short_password_witness :
    ("12345" : String).length < 6 ∧
    ∃ e : ValidationError, appRouter_createUser ⟨"alice", "12345"⟩ 0 0 = Except.error e :=
  ⟨by decide, createUser_route_rejects_short_password ⟨"alice", "12345"⟩ 0 0 (by decide)⟩

/-- C7: a login input with an empty username or an empty password fails
schema validation with a ValidationError before the handler runs, while
an input with both fields non-empty passes validation and the router
returns exactly the handler's response. -/
theorem login_route_validation (raw : LoginInput) :
    ((raw.username = "" ∨ raw.password = "") →
      ∃ e : ValidationError, appRouter_login raw = Except.error e) ∧
    (raw.username ≠ "" → raw.password ≠ "" →
      appRouter_login raw = Except.ok (login raw)) := by
  constructor
  · intro h
    unfold appRouter_login loginInputSchema_parse loginInputSchema_issues
    by_cases hu : raw.username.length < 1 <;> by_cases hp : raw.password.length < 1
    · rw [if_pos hu, if_pos hp]
      exact ⟨_, rfl⟩
    · rw [if_pos hu, if_neg hp]
      exact ⟨_, rfl⟩
    · rw [if_neg hu, if_pos hp]
      exact ⟨_, rfl⟩
    · exfalso
      cases h with
      | inl he => exact hu (by rw [he]; exact Nat.zero_lt_one)
      | inr he => exact hp (by rw [he]; exact Nat.zero_lt_one)
  · intro hu hp
    have hu' : ¬ raw.username.length < 1 := fun hlt =>
      hu ((string_length_eq_zero_iff _).1 (Nat.lt_one_iff.1 hlt))
    have hp' : ¬ raw.password.length < 1 := fun hlt =>
      hp ((string_length_eq_zero_iff _).1 (Nat.lt_one_iff.1 hlt))
    unfold appRouter_login loginInputSchema_parse loginInputSchema_issues
    rw [if_neg hu', if_neg hp']
    rfl

/-- Witness for C7: an empty username is rejected; the demo credentials
pass validation and reach the handler. -/
theorem login_route_validation_witness :
    (∃ e : ValidationError, appRouter_login ⟨"", "demo123"⟩ = Except.error e) ∧
    appRouter_login ⟨"demo", "demo123"⟩ = Except.ok (login ⟨"demo", "demo123"⟩) :=
  ⟨(login_route_validation ⟨"", "demo123"⟩).1 (Or.inl rfl),
   (login_route_validation ⟨"demo", "demo123"⟩).2 (by decide) (by decide)⟩

/-- C9: healthcheck is a total function with no failure mode; every call
returns status "ok", and along any sequence of calls at non-decreasing
clock instants the returned timestamps are non-decreasing. -/
theorem healthcheck_ok_and_monotone (ts : List Nat)
    (hmono : List.Chain' (fun a b => a ≤ b) ts) :
    (∀ t ∈ ts, (appRouter_healthcheck t).status = "ok") ∧
    List.Chain' (fun a b => a ≤ b)
      (ts.map (fun t => (appRouter_healthcheck t).timestamp)) := by
  refine ⟨fun t _ => rfl, ?_⟩
  rw [List.chain'_map]
  exact hmono

/-- Witness for C9 on the concrete call sequence at instants 0, 1, 5. -/
theorem healthcheck_ok_and_monotone_witness :
    List.Chain' (fun a b => a ≤ b) ([0, 1, 5] : List Nat) ∧
    ((∀ t ∈ ([0, 1, 5] : List Nat), (appRouter_healthcheck t).status = "ok") ∧
     List.Chain' (fun a b => a ≤ b)
       (([0, 1, 5] : List Nat).map (fun t => (appRouter_healthcheck t).timestamp))) :=
  ⟨by simp [List.chain'_cons], healthcheck_ok_and_monotone [0, 1, 5] (by simp [List.chain'_cons])⟩

/-- C10: for every input and every Math.random draw in [0, 1), createUser
returns the fixed placeholder hash string and an id between 0 and 999. -/
theorem createUser_placeholder_hash_and_id_range (input : CreateUserInput)
    (rand : ℚ) (now : Nat) (h0 : 0 ≤ rand) (h1 : rand < 1) :
    (createUser input rand now).password_hash = "$2b$10$placeholder_hash" ∧
    0 ≤ (createUser input rand now).id ∧ (createUser input rand now).id ≤ 999 := by
  refine ⟨rfl, ?_, ?_⟩
  · show (0 : Int) ≤ ⌊rand * 1000⌋
    exact Int.floor_nonneg.2 (mul_nonneg h0 (by norm_num))
  · show ⌊rand * 1000⌋ ≤ 999
    have hlt : ⌊rand * 1000⌋ < 1000 := by
      apply Int.floor_lt.2
      push_cast
      linarith
    omega

/-- Witness for C10 at the concrete draw 1/2. -/
theorem createUser_placeholder_hash_and_id_range_witness :
    (0 : ℚ) ≤ 1 / 2 ∧ (1 / 2 : ℚ) < 1 ∧
    ((createUser ⟨"alice", "secret123"⟩ (1 / 2) 0).password_hash =
        "$2b$10$placeholder_hash" ∧
      0 ≤ (createUser ⟨"alice", "secret123"⟩ (1 / 2) 0).id ∧
      (createUser ⟨"alice", "secret123"⟩ (1 / 2) 0).id ≤ 999) :=
  ⟨by norm_num, by norm_num,
   createUser_placeholder_hash_and_id_range ⟨"alice", "secret123"⟩ (1 / 2) 0
     (by norm_num) (by norm_num)⟩
